import Mathlib

set_option maxHeartbeats 1000000

/-!
Shallow embedding of the matlab-mcp-core-server core components:

* the singleton instance lock of
  `internal/utils/instancelock/instancelock.go` (`TryLockWithKill`,
  `createLock`), embedded as a pure function over an explicit environment
  that supplies the lock-file contents and the platform capabilities
  (liveness checks, kill requests, file writes) as oracles, and

* the pinned-certificate HTTPS client factory
  (`httpclientfactory.NewClientForSelfSignedTLSServer`), embedded as the
  construction path plus the custom `VerifyPeerCertificate` callback, with
  `x509` chain verification abstracted as an oracle indexed by the
  reference time.

Modelling conventions: `os.Stat` is modelled as failing exactly when the
lock file is absent; `os.Remove`, whose error the Go code ignores, is
modelled as succeeding; a failed `os.WriteFile` is modelled as leaving no
file (every path of the code that writes does so on a path where the file
is absent or has just been removed).  Time in the TLS component is modelled
at second granularity, so the 24-hour skew tolerance is 86400.
-/

namespace InstanceLock

/-- Characters trimmed by Go `strings.TrimSpace` within Latin-1: space,
tab, newline, vertical tab, form feed, carriage return, NEL and NBSP.
(Other Unicode white space is outside the scope of the decimal PID
contents this file reasons about.) -/
def isGoSpace (c : Char) : Bool :=
  c == ' ' || c == '\t' || c == '\n' || c.toNat == 11 || c.toNat == 12 ||
    c == '\r' || c.toNat == 0x85 || c.toNat == 0xA0

/-- Embedding of Go `strings.TrimSpace`: drop white space from both ends. -/
def trimSpace (s : String) : String :=
  ⟨((s.data.dropWhile isGoSpace).reverse.dropWhile isGoSpace).reverse⟩

/-- One step of decimal decoding, as done by `strconv.Atoi`. -/
def digitStep (a : Nat) (c : Char) : Nat := 10 * a + (c.toNat - 48)

/-- Decimal value of a digit string. -/
def decodeDigits (cs : List Char) : Nat := cs.foldl digitStep 0

/-- Digits part of `strconv.Atoi`: at least one character, all decimal
digits. -/
def parseNatDigits (cs : List Char) : Option Nat :=
  if cs.isEmpty then none
  else if cs.all Char.isDigit then some (decodeDigits cs) else none

/-- Largest value of Go `int` on a 64-bit platform. -/
def int64Max : Int := 2 ^ 63 - 1

/-- Smallest value of Go `int` on a 64-bit platform. -/
def int64Min : Int := -(2 ^ 63)

/-- Embedding of Go `strconv.Atoi`: optional sign, then one or more
decimal digits, rejecting values outside the platform `int` range
(`strconv.ErrRange` makes `Atoi` return a non-nil error, which the caller
treats as an unparsable lock file). -/
def goAtoi (s : String) : Option Int :=
  match s.data with
  | [] => none
  | c :: rest =>
    let digits := if c == '-' || c == '+' then rest else c :: rest
    match parseNatDigits digits with
    | none => none
    | some n =>
      let v : Int := if c == '-' then -(n : Int) else (n : Int)
      if v < int64Min ∨ int64Max < v then none else some v

/-- Error results of `TryLockWithKill`, after `fmt.Errorf` wrapping. -/
inductive LockError where
  | killFailed (pid : Int)
  | writeFailed
deriving DecidableEq, Repr

/-- Environment of one `TryLockWithKill` call: the caller's PID
(`l.pid`, from `os.Getpid`), the current lock-file state, and the outcome
of each external capability the call may use.  `alive p k` is the result
of the k-th `isProcessRunning(p)` check made during the call (index 0 is
the check made before the kill decision; indices 1..10 are the poll-loop
checks), `killOk p` tells whether `killProcess(p)` returns nil, and
`writeFails` tells whether the final `os.WriteFile` fails. -/
structure LockEnv where
  selfPid : Nat
  fileContents : Option String
  readFails : Bool
  alive : Int → Nat → Bool
  killOk : Int → Bool
  writeFails : Bool

/-- Instrumented result of a `TryLockWithKill` call: the returned pair
(`ok`, `err`), the final lock-file state, and counters for the externally
visible operations the call performed (kill requests issued, `os.Remove`
calls, `os.WriteFile` calls, and liveness checks made inside the post-kill
wait loop). -/
structure LockOutcome where
  ok : Bool
  err : Option LockError
  file : Option String
  kills : List Int
  removes : Nat
  writes : Nat
  pollChecks : Nat
deriving DecidableEq, Repr

/-- Number of liveness checks performed by the post-kill wait loop
(`for i := 0; i < 10; i++ { if !isProcessRunning { break }; sleep }`):
each iteration checks once and the loop exits on the first check that
observes the process dead.  `k` is the index of the next check and `fuel`
the remaining iterations. -/
def waitLoopChecks (alive : Nat → Bool) : Nat → Nat → Nat
  | _, 0 => 0
  | k, fuel + 1 => if alive k then 1 + waitLoopChecks alive (k + 1) fuel else 1

/-- Embedding of `createLock`: write the caller's PID in decimal as the
whole file content; report failure of the write.  `kills`, `removes` and
`pollChecks` carry the operations already performed by the caller. -/
def createLock (env : LockEnv) (kills : List Int) (removes pollChecks : Nat) :
    LockOutcome :=
  if env.writeFails then
    { ok := false, err := some .writeFailed, file := none, kills := kills,
      removes := removes, writes := 1, pollChecks := pollChecks }
  else
    { ok := true, err := none, file := some (Nat.repr env.selfPid),
      kills := kills, removes := removes, writes := 1,
      pollChecks := pollChecks }

/-- Embedding of `TryLockWithKill`: stat the lock file, read and parse the
recorded PID, short-circuit on a self-owned lock, and either reject, kill
and reclaim, or reclaim a stale record, following the Go control flow
line by line. -/
def TryLockWithKill (env : LockEnv) (killExisting : Bool) : LockOutcome :=
  match env.fileContents with
  | none => createLock env [] 0 0
  | some content =>
    if env.readFails then
      createLock env [] 1 0
    else
      match goAtoi (trimSpace content) with
      | none => createLock env [] 1 0
      | some existingPID =>
        if existingPID = (env.selfPid : Int) then
          { ok := true, err := none, file := some content, kills := [],
            removes := 0, writes := 0, pollChecks := 0 }
        else if env.alive existingPID 0 then
          if killExisting then
            if env.killOk existingPID then
              createLock env [existingPID] 1
                (waitLoopChecks (fun k => env.alive existingPID k) 1 10)
            else
              { ok := false, err := some (.killFailed existingPID),
                file := some content, kills := [existingPID], removes := 0,
                writes := 0, pollChecks := 0 }
          else
            { ok := false, err := none, file := some content, kills := [],
              removes := 0, writes := 0, pollChecks := 0 }
        else
          createLock env [] 1 0

/-- Embedding of `TryLock`, which forwards with `killExisting = false`. -/
def TryLock (env : LockEnv) : LockOutcome := TryLockWithKill env false

/-- State of one process in the two-process interleaving machine used to
examine concurrent `TryLockWithKill` calls: phase 0 has not yet looked at
the shared lock file, phase 1 holds the snapshot its Stat/Read observed,
phase 2 is finished with the recorded `(ok, err)` result. -/
structure ProcState where
  pid : Nat
  phase : Nat
  snapshot : Option String
  result : Option (Bool × Option LockError)
deriving DecidableEq, Repr

/-- Environment a machine process runs `TryLockWithKill` under: reads and
writes succeed, kills succeed, and liveness is the time-independent map
`aliveF`. -/
def procEnv (pid : Nat) (aliveF : Int → Bool) (snap : Option String) :
    LockEnv :=
  { selfPid := pid, fileContents := snap, readFails := false,
    alive := fun p _ => aliveF p, killOk := fun _ => true,
    writeFails := false }

/-- One atomic step of a machine process against the shared lock file:
phase 0 performs the existence-check/read part of `TryLockWithKill` and
snapshots the file; phase 1 computes the decision from that snapshot and
applies its remove/write effects.  The two phases are separate steps
because the Go code's check and claim-write are separate filesystem
operations with no atomicity between them. -/
def stepProc (aliveF : Int → Bool) (killExisting : Bool)
    (p : ProcState) (file : Option String) : ProcState × Option String :=
  match p.phase with
  | 0 => ({ p with phase := 1, snapshot := file }, file)
  | 1 =>
    let out := TryLockWithKill (procEnv p.pid aliveF p.snapshot) killExisting
    let file2 := if out.writes + out.removes = 0 then file else out.file
    ({ p with phase := 2, result := some (out.ok, out.err) }, file2)
  | _ => (p, file)

/-- Run an interleaving: `true` entries step the first process, `false`
entries the second. -/
def runSched (aliveF : Int → Bool) (killExisting : Bool) :
    List Bool → ProcState × ProcState × Option String →
    ProcState × ProcState × Option String
  | [], st => st
  | c :: rest, (a, b, file) =>
    if c then
      runSched aliveF killExisting rest
        ((stepProc aliveF killExisting a file).1, b,
          (stepProc aliveF killExisting a file).2)
    else
      runSched aliveF killExisting rest
        (a, (stepProc aliveF killExisting b file).1,
          (stepProc aliveF killExisting b file).2)

/-- Fresh machine process with the given PID. -/
def initProc (pid : Nat) : ProcState :=
  { pid := pid, phase := 0, snapshot := none, result := none }

end InstanceLock

namespace HttpClientFactory

/-- Clock skew tolerance of the verification callback: 24 hours, in
seconds (`const clockSkewTolerance = 24 * time.Hour`). -/
def clockSkewTolerance : Int := 24 * 60 * 60

/-- Validity window of one parsed X.509 certificate, at second
granularity (`cert.NotBefore`, `cert.NotAfter`). -/
structure Cert where
  notBefore : Int
  notAfter : Int
deriving DecidableEq, Repr

/-- Result of the `VerifyPeerCertificate` callback when it fails, one
constructor per `return fmt.Errorf(...)` site; `chainFailed` wraps the
error of the last chain-verification attempt (an abstract error code). -/
inductive VerifyError where
  | parseFailed
  | noCertificates
  | notYetValid
  | expired
  | chainFailed (code : Nat)
deriving DecidableEq, Repr

/-- Environment of one callback invocation: the wall-clock time `now`
(`time.Now()`), the parse outcome of each element of `rawCerts`
(`x509.ParseCertificate`, `none` meaning a parse error), and the result of
`certs[0].Verify` against the pinned pool when run with the given
reference time (`none` = success, `some code` = the attempt's error).
The first attempt leaves `opts.CurrentTime` at its zero value, which makes
`Verify` use the current time, modelled as the same `now`. -/
structure TLSEnv where
  now : Int
  rawCerts : List (Option Cert)
  verifyAt : Int → Option Nat

/-- Parse loop over the presented raw chain: the callback returns a parse
error as soon as one certificate fails to parse. -/
def parseAll : List (Option Cert) → Option (List Cert)
  | [] => some []
  | none :: _ => none
  | some c :: rest => (parseAll rest).map (c :: ·)

/-- Coarse validity pre-check: scan the parsed chain and fail on the
first certificate whose `NotBefore` is after `now + tolerance` or whose
`NotAfter` is before `now - tolerance` (checked in that order). -/
def precheck (now : Int) : List Cert → Option VerifyError
  | [] => none
  | c :: rest =>
    if now + clockSkewTolerance < c.notBefore then some .notYetValid
    else if c.notAfter < now - clockSkewTolerance then some .expired
    else precheck now rest

/-- Instrumented result of one callback invocation: the returned error
(`none` = the callback returned nil) and the list of reference times
passed to chain verification, in order. -/
structure VerifyOutcome where
  result : Option VerifyError
  attempts : List Int
deriving DecidableEq, Repr

/-- Embedding of the `VerifyPeerCertificate` callback installed by
`NewClientForSelfSignedTLSServer`: parse the chain, reject an empty
chain, run the coarse skew pre-check, then attempt chain verification at
`now`, `now + tolerance`, `now - tolerance`, accepting on the first
success and otherwise wrapping the last attempt's error. -/
def verifyPeerCertificate (env : TLSEnv) : VerifyOutcome :=
  match parseAll env.rawCerts with
  | none => { result := some .parseFailed, attempts := [] }
  | some certs =>
    if certs.isEmpty then { result := some .noCertificates, attempts := [] }
    else
      match precheck env.now certs with
      | some e => { result := some e, attempts := [] }
      | none =>
        match env.verifyAt env.now with
        | none => { result := none, attempts := [env.now] }
        | some _ =>
          match env.verifyAt (env.now + clockSkewTolerance) with
          | none =>
            { result := none,
              attempts := [env.now, env.now + clockSkewTolerance] }
          | some _ =>
            match env.verifyAt (env.now - clockSkewTolerance) with
            | none =>
              { result := none,
                attempts := [env.now, env.now + clockSkewTolerance,
                  env.now - clockSkewTolerance] }
            | some e2 =>
              { result := some (.chainFailed e2),
                attempts := [env.now, env.now + clockSkewTolerance,
                  env.now - clockSkewTolerance] }

/-- Errors of the construction path of `NewClientForSelfSignedTLSServer`,
one per `return nil, fmt.Errorf(...)` site. -/
inductive BuildError where
  | certParse
  | jarInit
deriving DecidableEq, Repr

/-- Constructed client value: the transport configuration installed by
`NewClientForSelfSignedTLSServer` (TLS 1.2 minimum, library verification
disabled in favour of the custom callback, the pinned PEM bytes as the
sole pool content) and a fresh empty cookie jar. -/
structure HttpClient where
  minVersion : Nat
  insecureSkipVerify : Bool
  pinnedPEM : List Nat
  cookies : List Nat
deriving DecidableEq, Repr

/-- Embedding of the construction path of
`NewClientForSelfSignedTLSServer`, returning the Go pair
`(HttpClient, error)` as two options.  `appendOk` is the result of
`caCertPool.AppendCertsFromPEM` on the given bytes and `jarOk` the
success of `cookiejar.New`. -/
def NewClientForSelfSignedTLSServer (appendOk : List Nat → Bool)
    (jarOk : Bool) (certificatePEM : List Nat) :
    Option HttpClient × Option BuildError :=
  if appendOk certificatePEM = false then
    (none, some .certParse)
  else if jarOk = false then
    (none, some .jarInit)
  else
    (some { minVersion := 0x0303, insecureSkipVerify := true,
            pinnedPEM := certificatePEM, cookies := [] }, none)

/-- Concrete TLS environment for the three-attempt claim: one valid
certificate, chain verification failing at every reference time. -/
def tlsEnvAllFail : TLSEnv :=
  { now := 1000000,
    rawCerts := [some { notBefore := 0, notAfter := 2000000 }],
    verifyAt := fun t => some (Int.toNat t) }

/-- Concrete TLS environment for the pre-check claim: a certificate whose
`NotBefore` lies beyond `now + 24h`. -/
def tlsEnvFuture : TLSEnv :=
  { now := 0,
    rawCerts := [some { notBefore := 100000, notAfter := 200000 }],
    verifyAt := fun _ => none }

end HttpClientFactory

namespace InstanceLock

/-- Concrete environment: dead PID 99999 recorded, caller is PID 42. -/
def envDead : LockEnv :=
  { selfPid := 42, fileContents := some "99999", readFails := false,
    alive := fun p _ => p == 42, killOk := fun _ => true,
    writeFails := false }

/-- Concrete environment: live competing PID 7 recorded, caller is PID 42,
kill requests succeed, the competitor dies at the third poll check. -/
def envLive : LockEnv :=
  { selfPid := 42, fileContents := some "7", readFails := false,
    alive := fun p k => p == 7 && k < 3, killOk := fun _ => true,
    writeFails := false }

/-- Concrete environment: live competing PID 7, kill requests fail. -/
def envKillFail : LockEnv :=
  { selfPid := 42, fileContents := some "7", readFails := false,
    alive := fun p _ => p == 7 || p == 42, killOk := fun _ => false,
    writeFails := false }

theorem createLock_ok_of_err_none (env : LockEnv) (kills : List Int)
    (removes pollChecks : Nat)
    (h : (createLock env kills removes pollChecks).err = none) :
    (createLock env kills removes pollChecks).ok = true := by
  unfold createLock at h ⊢
  by_cases hw : env.writeFails = true <;> simp_all

theorem waitLoopChecks_le (alive : Nat → Bool) :
    ∀ k fuel, waitLoopChecks alive k fuel ≤ fuel := by
  intro k fuel
  induction fuel generalizing k with
  | zero => simp [waitLoopChecks]
  | succ f ih =>
    simp only [waitLoopChecks]
    by_cases h : alive k
    · simp only [h, if_true]
      have := ih (k + 1)
      omega
    · simp [h]

theorem waitLoopChecks_early (alive : Nat → Bool) :
    ∀ k fuel j, j + 1 < waitLoopChecks alive k fuel → alive (k + j) = true := by
  intro k fuel
  induction fuel generalizing k with
  | zero => intro j h; simp [waitLoopChecks] at h
  | succ f ih =>
    intro j h
    simp only [waitLoopChecks] at h
    by_cases ha : alive k
    · simp only [ha, if_true] at h
      cases j with
      | zero => simpa using ha
      | succ j' =>
        have := ih (k + 1) j' (by omega)
        simpa [Nat.add_assoc, Nat.add_comm 1 j'] using this
    · simp [ha] at h

/-- C1: a lock file recording a dead PID is reclaimed.  If the lock file
exists, its content parses to `P`, the liveness check reports `P` dead
(and, as is true of any running caller, reports the caller's own PID
alive), and the final write succeeds, then `TryLockWithKill` returns
Acquired and the file afterwards holds the caller's PID in decimal, for
either value of `killExisting`. -/
theorem C1_dead_pid_reclaimed (env : InstanceLock.LockEnv)
    (killExisting : Bool) (s : String) (P : Int)
    (hfile : env.fileContents = some s)
    (hread : env.readFails = false)
    (hparse : InstanceLock.goAtoi (InstanceLock.trimSpace s) = some P)
    (hdead : env.alive P 0 = false)
    (hself : env.alive (env.selfPid : Int) 0 = true)
    (hwrite : env.writeFails = false) :
    (InstanceLock.TryLockWithKill env killExisting).ok = true ∧
    (InstanceLock.TryLockWithKill env killExisting).err = none ∧
    (InstanceLock.TryLockWithKill env killExisting).file =
      some (Nat.repr env.selfPid) := by
  have hne : ¬ P = (env.selfPid : Int) := by
    intro h
    rw [h, hself] at hdead
    exact Bool.noConfusion hdead
  simp only [InstanceLock.TryLockWithKill, hfile, hread, Bool.false_eq_true,
    if_false, hparse, hne, hdead, InstanceLock.createLock, hwrite,
    if_neg hne]
  simp

/-- Witness for C1 at the concrete environment `envDead`. -/
theorem C1_dead_pid_reclaimed_witness :
    (InstanceLock.TryLockWithKill InstanceLock.envDead false).ok = true ∧
    (InstanceLock.TryLockWithKill InstanceLock.envDead false).err = none ∧
    (InstanceLock.TryLockWithKill InstanceLock.envDead false).file =
      some (Nat.repr InstanceLock.envDead.selfPid) :=
  C1_dead_pid_reclaimed InstanceLock.envDead false "99999" 99999 rfl rfl
    (by decide) (by decide) (by decide) rfl

/-- C4: with a live competing owner and `killExisting = false`, the call
is Rejected (`(false, nil)`) and has no effect at all: the file keeps its
exact content and no kill, remove or write is performed. -/
theorem C4_rejected_no_effect (env : InstanceLock.LockEnv)
    (s : String) (P : Int)
    (hfile : env.fileContents = some s)
    (hread : env.readFails = false)
    (hparse : InstanceLock.goAtoi (InstanceLock.trimSpace s) = some P)
    (hne : ¬ P = (env.selfPid : Int))
    (halive : env.alive P 0 = true) :
    InstanceLock.TryLockWithKill env false =
      { ok := false, err := none, file := some s, kills := [],
        removes := 0, writes := 0, pollChecks := 0 } := by
  simp only [InstanceLock.TryLockWithKill, hfile, hread, Bool.false_eq_true,
    if_false, hparse, if_neg hne, halive, if_true]

/-- Witness for C4 at the concrete environment `envLive`. -/
theorem C4_rejected_no_effect_witness :
    InstanceLock.TryLockWithKill InstanceLock.envLive false =
      { ok := false, err := none, file := some "7", kills := [],
        removes := 0, writes := 0, pollChecks := 0 } :=
  C4_rejected_no_effect InstanceLock.envLive "7" 7 rfl rfl (by decide)
    (by decide) (by decide)

/-- C6: when the kill request for the live competing PID fails, the call
returns that failure as an error, performs no remove and no write, and
leaves the lock file unchanged. -/
theorem C6_kill_failure_surfaced (env : InstanceLock.LockEnv)
    (s : String) (P : Int)
    (hfile : env.fileContents = some s)
    (hread : env.readFails = false)
    (hparse : InstanceLock.goAtoi (InstanceLock.trimSpace s) = some P)
    (hne : ¬ P = (env.selfPid : Int))
    (halive : env.alive P 0 = true)
    (hkill : env.killOk P = false) :
    InstanceLock.TryLockWithKill env true =
      { ok := false, err := some (InstanceLock.LockError.killFailed P),
        file := some s, kills := [P], removes := 0, writes := 0,
        pollChecks := 0 } := by
  simp only [InstanceLock.TryLockWithKill, hfile, hread, Bool.false_eq_true,
    if_false, hparse, if_neg hne, halive, if_true, hkill]

/-- Witness for C6 at the concrete environment `envKillFail`. -/
theorem C6_kill_failure_surfaced_witness :
    InstanceLock.TryLockWithKill InstanceLock.envKillFail true =
      { ok := false, err := some (InstanceLock.LockError.killFailed 7),
        file := some "7", kills := [7], removes := 0, writes := 0,
        pollChecks := 0 } :=
  C6_kill_failure_surfaced InstanceLock.envKillFail "7" 7 rfl rfl
    (by decide) (by decide) (by decide) (by decide)

/-- C5: when the competing PID is alive, the kill request succeeds, and
the final write succeeds, the call performs at most 10 poll-loop liveness
checks on that PID, every check before the last observes it alive (the
loop stops as soon as it observes the PID dead), and regardless of the
poll outcome the lock file is removed and rewritten with the caller's
PID, returning Acquired. -/
theorem C5_kill_poll_and_reclaim (env : InstanceLock.LockEnv)
    (s : String) (P : Int)
    (hfile : env.fileContents = some s)
    (hread : env.readFails = false)
    (hparse : InstanceLock.goAtoi (InstanceLock.trimSpace s) = some P)
    (hne : ¬ P = (env.selfPid : Int))
    (halive : env.alive P 0 = true)
    (hkill : env.killOk P = true)
    (hwrite : env.writeFails = false) :
    (InstanceLock.TryLockWithKill env true).ok = true ∧
    (InstanceLock.TryLockWithKill env true).err = none ∧
    (InstanceLock.TryLockWithKill env true).file =
      some (Nat.repr env.selfPid) ∧
    (InstanceLock.TryLockWithKill env true).kills = [P] ∧
    (InstanceLock.TryLockWithKill env true).removes = 1 ∧
    (InstanceLock.TryLockWithKill env true).pollChecks ≤ 10 ∧
    (∀ j, j + 1 < (InstanceLock.TryLockWithKill env true).pollChecks →
      env.alive P (1 + j) = true) := by
  simp only [InstanceLock.TryLockWithKill, hfile, hread, Bool.false_eq_true,
    if_false, hparse, if_neg hne, halive, if_true, hkill,
    InstanceLock.createLock, hwrite]
  refine ⟨trivial, trivial, trivial, trivial, trivial, ?_, ?_⟩
  · exact InstanceLock.waitLoopChecks_le _ 1 10
  · intro j hj
    exact InstanceLock.waitLoopChecks_early (fun k => env.alive P k) 1 10 j hj

/-- Witness for C5 at the concrete environment `envLive` (the competitor
dies at the third poll check). -/
theorem C5_kill_poll_and_reclaim_witness :
    (InstanceLock.TryLockWithKill InstanceLock.envLive true).ok = true ∧
    (InstanceLock.TryLockWithKill InstanceLock.envLive true).err = none ∧
    (InstanceLock.TryLockWithKill InstanceLock.envLive true).file =
      some (Nat.repr InstanceLock.envLive.selfPid) ∧
    (InstanceLock.TryLockWithKill InstanceLock.envLive true).kills = [7] ∧
    (InstanceLock.TryLockWithKill InstanceLock.envLive true).removes = 1 ∧
    (InstanceLock.TryLockWithKill InstanceLock.envLive true).pollChecks ≤ 10 ∧
    (∀ j, j + 1 <
        (InstanceLock.TryLockWithKill InstanceLock.envLive true).pollChecks →
      InstanceLock.envLive.alive 7 (1 + j) = true) :=
  C5_kill_poll_and_reclaim InstanceLock.envLive "7" 7 rfl rfl (by decide)
    (by decide) (by decide) (by decide) rfl

/-- C10: with `killExisting = true` the Rejected outcome `(false, nil)`
is unreachable — whenever the returned error is nil the call acquired the
lock. -/
theorem C10_kill_true_never_rejected (env : InstanceLock.LockEnv)
    (h : (InstanceLock.TryLockWithKill env true).err = none) :
    (InstanceLock.TryLockWithKill env true).ok = true := by
  unfold InstanceLock.TryLockWithKill at h ⊢
  rcases hf : env.fileContents with _ | content <;> simp only [hf] at h ⊢
  · exact InstanceLock.createLock_ok_of_err_none env _ _ _ h
  · by_cases hr : env.readFails = true
    · rw [if_pos hr] at h ⊢
      exact InstanceLock.createLock_ok_of_err_none env _ _ _ h
    · rw [if_neg hr] at h ⊢
      rcases hp : InstanceLock.goAtoi (InstanceLock.trimSpace content)
        with _ | P <;> simp only [hp] at h ⊢
      · exact InstanceLock.createLock_ok_of_err_none env _ _ _ h
      · by_cases he : P = (env.selfPid : Int)
        · rw [if_pos he] at h ⊢
        · rw [if_neg he] at h ⊢
          by_cases ha : env.alive P 0 = true
          · rw [if_pos ha] at h ⊢
            rw [if_pos trivial] at h ⊢
            by_cases hk : env.killOk P = true
            · rw [if_pos hk] at h ⊢
              exact InstanceLock.createLock_ok_of_err_none env _ _ _ h
            · rw [if_neg hk] at h ⊢
              exact absurd h (by simp)
          · rw [if_neg ha] at h ⊢
            exact InstanceLock.createLock_ok_of_err_none env _ _ _ h

/-- Witness for C10 at the concrete environment `envLive`. -/
theorem C10_kill_true_never_rejected_witness :
    (InstanceLock.TryLockWithKill InstanceLock.envLive true).ok = true :=
  C10_kill_true_never_rejected InstanceLock.envLive (by decide)

end InstanceLock

namespace HttpClientFactory

theorem precheck_isSome_of_offender (now : Int) (certs : List Cert)
    (c : Cert) (hc : c ∈ certs)
    (hoff : now + clockSkewTolerance < c.notBefore ∨
      c.notAfter < now - clockSkewTolerance) :
    (precheck now certs).isSome = true := by
  induction certs with
  | nil => cases hc
  | cons d rest ih =>
    unfold precheck
    by_cases h1 : now + clockSkewTolerance < d.notBefore
    · rw [if_pos h1]; rfl
    · rw [if_neg h1]
      by_cases h2 : d.notAfter < now - clockSkewTolerance
      · rw [if_pos h2]; rfl
      · rw [if_neg h2]
        rcases List.mem_cons.mp hc with rfl | hc'
        · rcases hoff with ho | ho
          · exact absurd ho h1
          · exact absurd ho h2
        · exact ih hc'

/-- C3: if any certificate of the parsed (hence non-empty) chain has
`NotBefore` beyond `now + 24h` or `NotAfter` before `now - 24h`, the
callback fails during the coarse pre-check: it returns an error and makes
no chain-verification attempt at all. -/
theorem C3_skew_precheck_blocks_verify (env : TLSEnv) (certs : List Cert)
    (c : Cert)
    (hparse : parseAll env.rawCerts = some certs)
    (hc : c ∈ certs)
    (hoff : env.now + clockSkewTolerance < c.notBefore ∨
      c.notAfter < env.now - clockSkewTolerance) :
    (verifyPeerCertificate env).attempts = [] ∧
    (verifyPeerCertificate env).result.isSome = true := by
  have hempty : certs.isEmpty = false := by
    cases certs
    · cases hc
    · rfl
  obtain ⟨e, he⟩ := Option.isSome_iff_exists.mp
    (precheck_isSome_of_offender env.now certs c hc hoff)
  simp [verifyPeerCertificate, hparse, hempty, he]

/-- Witness for C3 at the concrete environment `tlsEnvFuture`. -/
theorem C3_skew_precheck_blocks_verify_witness :
    (verifyPeerCertificate tlsEnvFuture).attempts = [] ∧
    (verifyPeerCertificate tlsEnvFuture).result.isSome = true :=
  C3_skew_precheck_blocks_verify tlsEnvFuture
    [{ notBefore := 100000, notAfter := 200000 }]
    { notBefore := 100000, notAfter := 200000 }
    (by decide) (by decide) (by decide)

/-- C2: once the coarse pre-check passes, chain verification is attempted
at most three times, at `now`, `now + 24h`, `now - 24h` in that order,
stopping at the first success; if all three attempts fail the callback
returns an error wrapping the last (`now - 24h`) attempt's error,
discarding the earlier errors. -/
theorem C2_three_attempt_schedule (env : TLSEnv) (certs : List Cert)
    (hparse : parseAll env.rawCerts = some certs)
    (hne : certs ≠ [])
    (hpre : precheck env.now certs = none) :
    (verifyPeerCertificate env).attempts.length ≤ 3 ∧
    (env.verifyAt env.now = none →
      verifyPeerCertificate env =
        { result := none, attempts := [env.now] }) ∧
    (∀ e0, env.verifyAt env.now = some e0 →
      env.verifyAt (env.now + clockSkewTolerance) = none →
      verifyPeerCertificate env =
        { result := none,
          attempts := [env.now, env.now + clockSkewTolerance] }) ∧
    (∀ e0 e1, env.verifyAt env.now = some e0 →
      env.verifyAt (env.now + clockSkewTolerance) = some e1 →
      env.verifyAt (env.now - clockSkewTolerance) = none →
      verifyPeerCertificate env =
        { result := none,
          attempts := [env.now, env.now + clockSkewTolerance,
            env.now - clockSkewTolerance] }) ∧
    (∀ e0 e1 e2, env.verifyAt env.now = some e0 →
      env.verifyAt (env.now + clockSkewTolerance) = some e1 →
      env.verifyAt (env.now - clockSkewTolerance) = some e2 →
      verifyPeerCertificate env =
        { result := some (.chainFailed e2),
          attempts := [env.now, env.now + clockSkewTolerance,
            env.now - clockSkewTolerance] }) := by
  have hempty : certs.isEmpty = false := by
    cases certs
    · exact absurd rfl hne
    · rfl
  rcases h0 : env.verifyAt env.now with _ | e0 <;>
    rcases h1 : env.verifyAt (env.now + clockSkewTolerance) with _ | e1 <;>
      rcases h2 : env.verifyAt (env.now - clockSkewTolerance) with _ | e2 <;>
        simp only [verifyPeerCertificate, hparse, hempty, Bool.false_eq_true,
          if_false, hpre, h0, h1, h2] <;>
          refine ⟨by simp, ?_, ?_, ?_, ?_⟩ <;> intros <;> simp_all

/-- Witness for C2 at the concrete environment `tlsEnvAllFail`, where all
three attempts fail. -/
theorem C2_three_attempt_schedule_witness :
    (verifyPeerCertificate tlsEnvAllFail).attempts.length ≤ 3 ∧
    (tlsEnvAllFail.verifyAt tlsEnvAllFail.now = none →
      verifyPeerCertificate tlsEnvAllFail =
        { result := none, attempts := [tlsEnvAllFail.now] }) ∧
    (∀ e0, tlsEnvAllFail.verifyAt tlsEnvAllFail.now = some e0 →
      tlsEnvAllFail.verifyAt (tlsEnvAllFail.now + clockSkewTolerance) = none →
      verifyPeerCertificate tlsEnvAllFail =
        { result := none,
          attempts := [tlsEnvAllFail.now,
            tlsEnvAllFail.now + clockSkewTolerance] }) ∧
    (∀ e0 e1, tlsEnvAllFail.verifyAt tlsEnvAllFail.now = some e0 →
      tlsEnvAllFail.verifyAt (tlsEnvAllFail.now + clockSkewTolerance) =
        some e1 →
      tlsEnvAllFail.verifyAt (tlsEnvAllFail.now - clockSkewTolerance) =
        none →
      verifyPeerCertificate tlsEnvAllFail =
        { result := none,
          attempts := [tlsEnvAllFail.now,
            tlsEnvAllFail.now + clockSkewTolerance,
            tlsEnvAllFail.now - clockSkewTolerance] }) ∧
    (∀ e0 e1 e2, tlsEnvAllFail.verifyAt tlsEnvAllFail.now = some e0 →
      tlsEnvAllFail.verifyAt (tlsEnvAllFail.now + clockSkewTolerance) =
        some e1 →
      tlsEnvAllFail.verifyAt (tlsEnvAllFail.now - clockSkewTolerance) =
        some e2 →
      verifyPeerCertificate tlsEnvAllFail =
        { result := some (.chainFailed e2),
          attempts := [tlsEnvAllFail.now,
            tlsEnvAllFail.now + clockSkewTolerance,
            tlsEnvAllFail.now - clockSkewTolerance] }) :=
  C2_three_attempt_schedule tlsEnvAllFail
    [{ notBefore := 0, notAfter := 2000000 }] (by decide) (by decide)
    (by decide)

/-- C8: when the supplied bytes do not parse as a PEM certificate
(`AppendCertsFromPEM` reports failure), the factory returns the parse
error and a nil client; in general the client and the error returns are
mutually exclusive. -/
theorem C8_parse_failure_no_client (appendOk : List Nat → Bool)
    (jarOk : Bool) (pem : List Nat) (h : appendOk pem = false) :
    NewClientForSelfSignedTLSServer appendOk jarOk pem =
      (none, some BuildError.certParse) ∧
    ∀ (appendOk2 : List Nat → Bool) (jarOk2 : Bool) (pem2 : List Nat),
      ((NewClientForSelfSignedTLSServer appendOk2 jarOk2 pem2).1.isSome ↔
        (NewClientForSelfSignedTLSServer appendOk2 jarOk2 pem2).2 = none) := by
  constructor
  · simp [NewClientForSelfSignedTLSServer, h]
  · intro appendOk2 jarOk2 pem2
    unfold NewClientForSelfSignedTLSServer
    by_cases h2 : appendOk2 pem2 = false
    · simp [h2]
    · by_cases hj : jarOk2 = false <;> simp [h2, hj]

/-- Witness for C8 with bytes rejected by the PEM parser. -/
theorem C8_parse_failure_no_client_witness :
    NewClientForSelfSignedTLSServer (fun _ => false) true [13, 10] =
      (none, some BuildError.certParse) ∧
    ∀ (appendOk2 : List Nat → Bool) (jarOk2 : Bool) (pem2 : List Nat),
      ((NewClientForSelfSignedTLSServer appendOk2 jarOk2 pem2).1.isSome ↔
        (NewClientForSelfSignedTLSServer appendOk2 jarOk2 pem2).2 = none) :=
  C8_parse_failure_no_client (fun _ => false) true [13, 10] rfl

end HttpClientFactory

namespace InstanceLock

theorem toDigitsCore_acc (b : Nat) :
    ∀ (f n : Nat) (l : List Char),
      Nat.toDigitsCore b f n l = Nat.toDigitsCore b f n [] ++ l := by
  intro f
  induction f with
  | zero => intro n l; rfl
  | succ f ih =>
    intro n l
    simp only [Nat.toDigitsCore]
    by_cases h : n / b = 0
    · simp [h]
    · rw [if_neg h, if_neg h, ih (n / b) (Nat.digitChar (n % b) :: l),
        ih (n / b) [Nat.digitChar (n % b)], List.append_assoc,
        List.singleton_append]

theorem digitChar_facts :
    ∀ m, m < 10 → Char.isDigit (Nat.digitChar m) = true ∧
      isGoSpace (Nat.digitChar m) = false ∧
      (Nat.digitChar m == '-') = false ∧
      (Nat.digitChar m == '+') = false ∧
      (Nat.digitChar m).toNat = m + 48 := by decide


theorem toDigitsCore_succ (b fuel n : Nat) (l : List Char) :
    Nat.toDigitsCore b (fuel + 1) n l =
      if n / b = 0 then Nat.digitChar (n % b) :: l
      else Nat.toDigitsCore b fuel (n / b) (Nat.digitChar (n % b) :: l) :=
  rfl

theorem toDigitsCore_spec :
    ∀ (f n : Nat), n < 10 ^ (f + 1) →
      Nat.toDigitsCore 10 (f + 1) n [] ≠ [] ∧
      (∀ c ∈ Nat.toDigitsCore 10 (f + 1) n [],
        ∃ m, m < 10 ∧ c = Nat.digitChar m) ∧
      decodeDigits (Nat.toDigitsCore 10 (f + 1) n []) = n := by
  intro f
  induction f with
  | zero =>
    intro n h
    have hlt : n < 10 := by simpa using h
    have h10 : n / 10 = 0 := Nat.div_eq_of_lt hlt
    have hn : n % 10 = n := Nat.mod_eq_of_lt hlt
    rw [toDigitsCore_succ, if_pos h10]
    refine ⟨by simp, ?_, ?_⟩
    · intro c hc
      rcases List.mem_singleton.mp hc with rfl
      exact ⟨n % 10, Nat.mod_lt n (by norm_num), rfl⟩
    · have hf := (digitChar_facts n hlt).2.2.2.2
      simp only [decodeDigits, List.foldl_cons, List.foldl_nil, digitStep,
        hn, hf]
      omega
  | succ f ih =>
    intro n h
    by_cases h10 : n / 10 = 0
    · have hlt : n < 10 := (Nat.div_eq_zero_iff (by norm_num)).mp h10
      have hn : n % 10 = n := Nat.mod_eq_of_lt hlt
      rw [toDigitsCore_succ, if_pos h10]
      refine ⟨by simp, ?_, ?_⟩
      · intro c hc
        rcases List.mem_singleton.mp hc with rfl
        exact ⟨n % 10, Nat.mod_lt n (by norm_num), rfl⟩
      · have hf := (digitChar_facts n hlt).2.2.2.2
        simp only [decodeDigits, List.foldl_cons, List.foldl_nil, digitStep,
          hn, hf]
        omega
    · have hdivlt : n / 10 < 10 ^ (f + 1) := by
        rw [Nat.div_lt_iff_lt_mul (by norm_num : (0:Nat) < 10)]
        calc n < 10 ^ (f + 1 + 1) := h
          _ = 10 ^ (f + 1) * 10 := by ring
      obtain ⟨hne, hdig, hdec⟩ := ih (n / 10) hdivlt
      have hstep : Nat.toDigitsCore 10 (f + 1 + 1) n [] =
          Nat.toDigitsCore 10 (f + 1) (n / 10) [] ++
            [Nat.digitChar (n % 10)] := by
        rw [toDigitsCore_succ, if_neg h10,
          toDigitsCore_acc 10 (f + 1) (n / 10) [Nat.digitChar (n % 10)]]
      rw [hstep]
      refine ⟨by simp, ?_, ?_⟩
      · intro c hc
        rcases List.mem_append.mp hc with hc' | hc'
        · exact hdig c hc'
        · rcases List.mem_singleton.mp hc' with rfl
          exact ⟨n % 10, Nat.mod_lt n (by norm_num), rfl⟩
      · have hchar := (digitChar_facts (n % 10)
          (Nat.mod_lt n (by norm_num))).2.2.2.2
        have hsplit : decodeDigits (Nat.toDigitsCore 10 (f + 1) (n / 10) [] ++
            [Nat.digitChar (n % 10)]) =
            digitStep
              (decodeDigits (Nat.toDigitsCore 10 (f + 1) (n / 10) []))
              (Nat.digitChar (n % 10)) := by
          simp [decodeDigits, List.foldl_append]
        rw [hsplit, hdec]
        simp only [digitStep, hchar]
        omega

theorem repr_spec (n : Nat) :
    (Nat.repr n).data ≠ [] ∧
    (∀ c ∈ (Nat.repr n).data, ∃ m, m < 10 ∧ c = Nat.digitChar m) ∧
    decodeDigits (Nat.repr n).data = n := by
  have hlt : n < 10 ^ (n + 1) :=
    lt_of_lt_of_le (Nat.lt_pow_self (by norm_num) n)
      (Nat.pow_le_pow_right (by norm_num) (Nat.le_succ n))
  exact toDigitsCore_spec n n hlt

theorem dropWhile_eq_self (p : Char → Bool) :
    ∀ (l : List Char), (∀ c ∈ l, p c = false) → l.dropWhile p = l := by
  intro l hl
  cases l with
  | nil => rfl
  | cons c t =>
    rw [List.dropWhile_cons, hl c (List.mem_cons_self c t)]
    simp

theorem trimSpace_of_digits (s : String)
    (hd : ∀ c ∈ s.data, ∃ m, m < 10 ∧ c = Nat.digitChar m) :
    trimSpace s = s := by
  have hs : ∀ c ∈ s.data, isGoSpace c = false := by
    intro c hc
    obtain ⟨m, hm, rfl⟩ := hd c hc
    exact (digitChar_facts m hm).2.1
  unfold trimSpace
  rw [dropWhile_eq_self isGoSpace s.data hs,
    dropWhile_eq_self isGoSpace s.data.reverse
      (fun c hc => hs c (List.mem_reverse.mp hc)),
    List.reverse_reverse]

theorem goAtoi_repr (n : Nat) :
    goAtoi (trimSpace (Nat.repr n)) =
      if (n : Int) ≤ int64Max then some (n : Int) else none := by
  obtain ⟨hne, hdig, hdec⟩ := repr_spec n
  rw [trimSpace_of_digits _ hdig]
  rcases hdata : (Nat.repr n).data with _ | ⟨c, rest⟩
  · exact absurd hdata hne
  · obtain ⟨m, hm, hc⟩ := hdig c
      (by rw [hdata]; exact List.mem_cons_self c rest)
    have hminus : (c == '-') = false := by
      rw [hc]; exact (digitChar_facts m hm).2.2.1
    have hplus : (c == '+') = false := by
      rw [hc]; exact (digitChar_facts m hm).2.2.2.1
    have hall : (c :: rest).all Char.isDigit = true := by
      rw [← hdata]
      apply List.all_eq_true.mpr
      intro c' hc'
      obtain ⟨m', hm', rfl⟩ := hdig c' hc'
      exact (digitChar_facts m' hm').1
    have hdecn : decodeDigits (c :: rest) = n := by
      rw [← hdata]; exact hdec
    have hmin : ¬ ((n : Int) < int64Min) := by
      have h0 : (0 : Int) ≤ (n : Int) := Int.natCast_nonneg n
      have hneg : int64Min < 0 := by norm_num [int64Min]
      omega
    simp only [goAtoi, hdata, hminus, hplus, Bool.or_self,
      Bool.false_eq_true, if_false, parseNatDigits, List.isEmpty_cons,
      hall, if_true, hdecn]
    by_cases hle : (n : Int) ≤ int64Max
    · rw [if_neg (fun hor =>
        hor.elim hmin fun hx => absurd hle (not_le.mpr hx)), if_pos hle]
    · rw [if_pos (Or.inr (not_le.mp hle)), if_neg hle]

theorem acquire_after_own_write (env2 : LockEnv) (k : Bool)
    (hfile : env2.fileContents = some (Nat.repr env2.selfPid))
    (hw : env2.writeFails = false) :
    (TryLockWithKill env2 k).ok = true ∧
    (TryLockWithKill env2 k).err = none := by
  by_cases hr : env2.readFails = true
  · simp only [TryLockWithKill, hfile, if_pos hr, createLock, hw,
      Bool.false_eq_true, if_false]
    refine ⟨?_, ?_⟩ <;> trivial
  · have hro := goAtoi_repr env2.selfPid
    by_cases hle : ((env2.selfPid : Nat) : Int) ≤ int64Max
    · rw [if_pos hle] at hro
      simp only [TryLockWithKill, hfile, if_neg hr, hro, if_pos rfl]
      refine ⟨?_, ?_⟩ <;> trivial
    · rw [if_neg hle] at hro
      simp only [TryLockWithKill, hfile, if_neg hr, hro, createLock, hw,
        Bool.false_eq_true, if_false]
      refine ⟨?_, ?_⟩ <;> trivial

theorem reacquire_after_createLock (env : LockEnv) (k2 : Bool)
    (f : Option String) (hw : env.writeFails = false)
    (hf : f = some (Nat.repr env.selfPid)) :
    (TryLockWithKill { env with fileContents := f } k2).ok = true ∧
    (TryLockWithKill { env with fileContents := f } k2).err = none :=
  acquire_after_own_write { env with fileContents := f } k2 hf hw

end InstanceLock

namespace InstanceLock

/-- C7: re-acquisition is idempotent.  If a `TryLockWithKill` call from
PID `p` returns Acquired, an immediately following call from the same PID
(run under the same environment against the lock file the first call left
behind) also returns Acquired with no error, for either value of
`killExisting` in either call. -/
theorem C7_reacquire_idempotent (env : InstanceLock.LockEnv) (k1 k2 : Bool)
    (h : (InstanceLock.TryLockWithKill env k1).ok = true) :
    (InstanceLock.TryLockWithKill
      { env with
        fileContents := (InstanceLock.TryLockWithKill env k1).file }
      k2).ok = true ∧
    (InstanceLock.TryLockWithKill
      { env with
        fileContents := (InstanceLock.TryLockWithKill env k1).file }
      k2).err = none := by
  have hcreate : ∀ ks r p,
      InstanceLock.TryLockWithKill env k1 =
        InstanceLock.createLock env ks r p →
      (InstanceLock.TryLockWithKill
        { env with
          fileContents := (InstanceLock.TryLockWithKill env k1).file }
        k2).ok = true ∧
      (InstanceLock.TryLockWithKill
        { env with
          fileContents := (InstanceLock.TryLockWithKill env k1).file }
        k2).err = none := by
    intro ks r p hout
    have hw : env.writeFails = false := by
      cases hb : env.writeFails with
      | false => rfl
      | true =>
        rw [hout] at h
        simp [InstanceLock.createLock, hb] at h
    have hfeq : (InstanceLock.TryLockWithKill env k1).file =
        some (Nat.repr env.selfPid) := by
      rw [hout]
      simp [InstanceLock.createLock, hw]
    exact InstanceLock.reacquire_after_createLock env k2 _ hw hfeq
  rcases hfc : env.fileContents with _ | content
  · exact hcreate [] 0 0 (by simp [InstanceLock.TryLockWithKill, hfc])
  · by_cases hr : env.readFails = true
    · exact hcreate [] 1 0 (by simp [InstanceLock.TryLockWithKill, hfc, hr])
    · rcases hp : InstanceLock.goAtoi (InstanceLock.trimSpace content)
        with _ | P
      · exact hcreate [] 1 0
          (by simp [InstanceLock.TryLockWithKill, hfc, hr, hp])
      · by_cases he : P = (env.selfPid : Int)
        · have hout : InstanceLock.TryLockWithKill env k1 =
              { ok := true, err := none, file := some content, kills := [],
                removes := 0, writes := 0, pollChecks := 0 } := by
            simp [InstanceLock.TryLockWithKill, hfc, hr, hp, he]
          rw [hout]
          refine ⟨?_, ?_⟩ <;>
            simp [InstanceLock.TryLockWithKill, hr, hp, he]
        · by_cases ha : env.alive P 0 = true
          · cases k1 with
            | false =>
              have hout : InstanceLock.TryLockWithKill env false =
                  { ok := false, err := none, file := some content,
                    kills := [], removes := 0, writes := 0,
                    pollChecks := 0 } := by
                simp [InstanceLock.TryLockWithKill, hfc, hr, hp, he, ha]
              rw [hout] at h
              simp at h
            | true =>
              by_cases hk : env.killOk P = true
              · exact hcreate [P] 1
                  (InstanceLock.waitLoopChecks
                    (fun k => env.alive P k) 1 10)
                  (by simp [InstanceLock.TryLockWithKill, hfc, hr, hp, he,
                    ha, hk])
              · have hout : InstanceLock.TryLockWithKill env true =
                    { ok := false,
                      err := some (InstanceLock.LockError.killFailed P),
                      file := some content, kills := [P], removes := 0,
                      writes := 0, pollChecks := 0 } := by
                  simp [InstanceLock.TryLockWithKill, hfc, hr, hp, he, ha,
                    hk]
                rw [hout] at h
                simp at h
          · exact hcreate [] 1 0
              (by simp [InstanceLock.TryLockWithKill, hfc, hr, hp, he, ha])

/-- Witness for C7 at the concrete environment `envDead`: the first call
reclaims the stale record, the second call re-acquires. -/
theorem C7_reacquire_idempotent_witness :
    (InstanceLock.TryLockWithKill
      { InstanceLock.envDead with
        fileContents :=
          (InstanceLock.TryLockWithKill InstanceLock.envDead false).file }
      true).ok = true ∧
    (InstanceLock.TryLockWithKill
      { InstanceLock.envDead with
        fileContents :=
          (InstanceLock.TryLockWithKill InstanceLock.envDead false).file }
      true).err = none :=
  C7_reacquire_idempotent InstanceLock.envDead false true (by decide)

end InstanceLock

namespace InstanceLock

/-- C9 counterexample: the mutual-exclusion invariant does not span
interleaved executions of the non-atomic check-then-write sequence.  In
the two-process machine, PIDs 1 and 2 (both alive, lock file initially
absent, `killExisting = false`) can interleave as observe/observe/
claim/claim, after which BOTH processes have returned Acquired
`(true, nil)` — two live owners at once. -/
theorem C9_race_double_acquire_counterexample :
    (runSched (fun _ => true) false [true, false, true, false]
        (initProc 1, initProc 2, none)).1.result = some (true, none) ∧
    (runSched (fun _ => true) false [true, false, true, false]
        (initProc 1, initProc 2, none)).2.1.result = some (true, none) ∧
    (1 : Nat) ≠ 2 := by
  refine ⟨rfl, rfl, by decide⟩

/-- C9 amended: mutual exclusion holds for serialized executions.  When
one `TryLockWithKill` runs to completion before the next begins, a second
process (different PID, within the platform integer range, with the first
owner still alive) calling with `killExisting = false` is Rejected: the
first caller acquires, the second does not, and the lock file still names
the first owner. -/
theorem C9_amended_serialized_mutual_exclusion (a b : Nat)
    (hab : ¬ a = b) (ha64 : ((a : Nat) : Int) ≤ int64Max)
    (aliveF : Int → Bool) (haliveA : aliveF ((a : Nat) : Int) = true) :
    (InstanceLock.TryLockWithKill (procEnv a aliveF none) false).ok =
      true ∧
    (InstanceLock.TryLockWithKill
      (procEnv b aliveF
        (InstanceLock.TryLockWithKill (procEnv a aliveF none) false).file)
      false).ok = false ∧
    (InstanceLock.TryLockWithKill
      (procEnv b aliveF
        (InstanceLock.TryLockWithKill (procEnv a aliveF none) false).file)
      false).err = none ∧
    (InstanceLock.TryLockWithKill
      (procEnv b aliveF
        (InstanceLock.TryLockWithKill (procEnv a aliveF none) false).file)
      false).file = some (Nat.repr a) := by
  have houtA : InstanceLock.TryLockWithKill (procEnv a aliveF none) false =
      InstanceLock.createLock (procEnv a aliveF none) [] 0 0 := by
    simp [InstanceLock.TryLockWithKill, procEnv]
  have hfileA : (InstanceLock.TryLockWithKill
      (procEnv a aliveF none) false).file = some (Nat.repr a) := by
    rw [houtA]
    simp [InstanceLock.createLock, procEnv]
  have hro := goAtoi_repr a
  rw [if_pos ha64] at hro
  have hne : ¬ ((a : Int) = ((b : Nat) : Int)) := by
    intro hx
    exact hab (Int.natCast_inj.mp hx)
  refine ⟨by rw [houtA]; simp [InstanceLock.createLock, procEnv], ?_, ?_, ?_⟩ <;>
    · rw [hfileA]
      simp only [InstanceLock.TryLockWithKill, procEnv, hro,
        Bool.false_eq_true, if_false, if_neg hne, haliveA, if_true]

/-- Witness for the amended C9 with PIDs 1 and 2, PID 1 alive. -/
theorem C9_amended_serialized_mutual_exclusion_witness :
    (InstanceLock.TryLockWithKill
      (procEnv 1 (fun p => p == 1) none) false).ok = true ∧
    (InstanceLock.TryLockWithKill
      (procEnv 2 (fun p => p == 1)
        (InstanceLock.TryLockWithKill
          (procEnv 1 (fun p => p == 1) none) false).file)
      false).ok = false ∧
    (InstanceLock.TryLockWithKill
      (procEnv 2 (fun p => p == 1)
        (InstanceLock.TryLockWithKill
          (procEnv 1 (fun p => p == 1) none) false).file)
      false).err = none ∧
    (InstanceLock.TryLockWithKill
      (procEnv 2 (fun p => p == 1)
        (InstanceLock.TryLockWithKill
          (procEnv 1 (fun p => p == 1) none) false).file)
      false).file = some (Nat.repr 1) :=
  C9_amended_serialized_mutual_exclusion 1 2 (by decide) (by decide)
    (fun p => p == 1) rfl

end InstanceLock
